/-
Verification of the nuclide-debugger-cli session core
(src/modules/nuclide-debugger-cli/lib/Debugger.js) against its
natural-language specification.

The Debugger class is shallowly embedded: its mutable fields become a
Lean structure, each method or event handler becomes a pure function on
that structure, and DAP requests and responses become explicit
parameters (the adapter's replies) or explicit outcome values.  The
collaborating collections (BreakpointCollection, ThreadCollection,
SourceFileCache) are not under src/, so their operations are modelled
from the spec where used, as noted on each definition.
-/
import Mathlib

set_option linter.unusedVariables false

/-- Session state of the debugger core.  Mirrors the SessionState union
type of Debugger.js (lines 60-65). -/
inductive SessionState where
  | INITIALIZING
  | CONFIGURING
  | RUNNING
  | STOPPED
  | TERMINATED
deriving DecidableEq, Repr

/-- A user-visible breakpoint.  Mirrors the SourceBreakpoint and
FunctionBreakpoint records of BreakpointCollection (declared in
Debugger.js imports; record shape taken from the spec data model): a
source breakpoint has a path and line, a function breakpoint has func
set; both carry index, enabled, id, verified, message. -/
structure Breakpoint where
  index : Nat
  path : Option String := none
  line : Option Nat := none
  func : Option String := none
  enabled : Bool := true
  id : Option Nat := none
  verified : Bool := false
  message : Option String := none
deriving DecidableEq, Repr

/-- The source record attached to a DAP breakpoint returned by the
adapter (DebugProtocol.Source, as consumed by updateBreakpoint). -/
structure AdapterSource where
  path : Option String := none
deriving DecidableEq, Repr

/-- A breakpoint record returned by the adapter in a setBreakpoints /
setFunctionBreakpoints response (DebugProtocol.Breakpoint, as consumed
by updateBreakpoint).  verified is optional because the code guards it
with a null check. -/
structure AdapterBreakpoint where
  id : Option Nat := none
  verified : Option Bool := none
  message : Option String := none
  source : Option AdapterSource := none
  line : Option Nat := none
deriving DecidableEq, Repr

/-- Modelled from the spec: BreakpointCollection.getByIndex (the
collection source is not under src/); returns the breakpoint with the
given user-visible index. -/
def getBreakpointByIndex? (col : List Breakpoint) (index : Nat) : Option Breakpoint :=
  col.find? (fun b => b.index == index)

/-- Helper: apply a field update to the breakpoint with the given
index, leaving all others unchanged.  Each BreakpointCollection setter
below is an instance of this. -/
def modifyAt (col : List Breakpoint) (index : Nat) (g : Breakpoint → Breakpoint) :
    List Breakpoint :=
  col.map (fun b => if b.index == index then g b else b)

/-- Modelled from the spec: BreakpointCollection.setId. -/
def setBreakpointId (col : List Breakpoint) (index i : Nat) : List Breakpoint :=
  modifyAt col index (fun b => { b with id := some i })

/-- Modelled from the spec: BreakpointCollection.setVerified. -/
def setBreakpointVerified (col : List Breakpoint) (index : Nat) (v : Bool) :
    List Breakpoint :=
  modifyAt col index (fun b => { b with verified := v })

/-- Modelled from the spec: BreakpointCollection.setPathAndLine, used
for function breakpoints whose source location the adapter resolved. -/
def setPathAndFile (col : List Breakpoint) (index : Nat) (p : String) (l : Nat) :
    List Breakpoint :=
  modifyAt col index (fun b => { b with path := some p, line := some l })

/-- Modelled from the spec: BreakpointCollection.setEnabled on one
breakpoint (Breakpoint.setEnabled in the source). -/
def setEnabledFlag (col : List Breakpoint) (index : Nat) (e : Bool) : List Breakpoint :=
  modifyAt col index (fun b => { b with enabled := e })

/-- Modelled from the spec: Breakpoint.setEnabled applied to the
current negation of the stored flag, as toggleBreakpoint does. -/
def toggleEnabledFlag (col : List Breakpoint) (index : Nat) : List Breakpoint :=
  modifyAt col index (fun b => { b with enabled := !b.enabled })

/-- Modelled from the spec: getAllEnabledBreakpointsForSource — the
enabled source breakpoints of one path, in collection order. -/
def getAllEnabledBreakpointsForSource (col : List Breakpoint) (path : String) :
    List Breakpoint :=
  col.filter (fun b => b.enabled && b.path == some path)

/-- Modelled from the spec: getAllEnabledFunctionBreakpoints. -/
def getAllEnabledFunctionBreakpoints (col : List Breakpoint) : List Breakpoint :=
  col.filter (fun b => b.enabled && b.func.isSome)

/-- Modelled from the spec: the distinct paths that have at least one
enabled source breakpoint (getAllEnabledBreakpointsByPath keys). -/
def enabledSourcePaths (col : List Breakpoint) : List String :=
  (col.filterMap (fun b => if b.enabled then b.path else none)).dedup

/-- The message substituted for unverified breakpoints that arrived
without one (Debugger.js lines 816-819). -/
def couldNotSetMsg : String :=
  "Could not set this breakpoint. The module may not have been loaded yet."

/-- Debugger.prototype.updateBreakpoint (Debugger.js lines 782-820):
pairwise reconciliation of one local breakpoint with the adapter's
positionally corresponding returned breakpoint.  Returns the updated
collection together with the (possibly message-patched) adapter
breakpoint, since the source mutates remote.message in place. -/
def updateBreakpoint (col : List Breakpoint) (localBp : Breakpoint)
    (remote : AdapterBreakpoint) : List Breakpoint × AdapterBreakpoint :=
  let index := localBp.index
  let col1 :=
    match remote.id with
    | some i =>
      let c := setBreakpointId col index i
      match remote.verified with
      | some v => setBreakpointVerified c index v
      | none => c
    | none =>
      -- no id from the adapter: breakpoint events can never confirm it,
      -- so the source assumes it verified
      setBreakpointVerified col index true
  let col2 :=
    match localBp.func, remote.source with
    | some _, some src =>
      match src.path, remote.line with
      | some p, some l => setPathAndFile col1 index p l
      | _, _ => col1
    | _, _ => col1
  let remote2 :=
    if remote.verified = some true then remote
    else if remote.message = none ∨ remote.message = some "" then
      { remote with message := some couldNotSetMsg }
    else remote
  (col2, remote2)

/-- The per-breakpoint record update that updateBreakpoint performs on
the breakpoint carrying the local index (used to characterise the
collection after the call). -/
def updOne (localFunc : Option String) (remote : AdapterBreakpoint)
    (b : Breakpoint) : Breakpoint :=
  let b1 :=
    match remote.id with
    | some i =>
      match remote.verified with
      | some v => { b with id := some i, verified := v }
      | none => { b with id := some i }
    | none => { b with verified := true }
  match localFunc, remote.source with
  | some _, some src =>
    match src.path, remote.line with
    | some p, some l => { b1 with path := some p, line := some l }
    | _, _ => b1
  | _, _ => b1

/-- setSourceBreakpointsForPath's reconciliation loop (Debugger.js
lines 479-483): pair the enabled local breakpoints of a path
positionally with the adapter's response and update each. -/
def reconcileSourcePath (col : List Breakpoint) (path : String)
    (remotes : List AdapterBreakpoint) : List Breakpoint :=
  ((getAllEnabledBreakpointsForSource col path).zip remotes).foldl
    (fun acc pr => (updateBreakpoint acc pr.1 pr.2).1) col

/-- resetAllFunctionBreakpoints' reconciliation loop (Debugger.js
lines 777-779). -/
def reconcileFunctionBreakpoints (col : List Breakpoint)
    (remotes : List AdapterBreakpoint) : List Breakpoint :=
  ((getAllEnabledFunctionBreakpoints col).zip remotes).foldl
    (fun acc pr => (updateBreakpoint acc pr.1 pr.2).1) col

/-- Capabilities copied from the adapter's initialize response
(Debugger.js lines 55-58 and 711-722); only the consulted fields are
modelled. -/
structure InitCaps where
  supportsReadyForEvaluationsEvent : Bool := false
  supportsConfigurationDoneRequest : Bool := false
  supportsFunctionBreakpoints : Bool := false
deriving DecidableEq, Repr

/-- The mutable state of the Debugger class (Debugger.js lines 67-84),
together with the console-input line (ConsoleIO startInput/stopInput
calls become the inputEnabled flag), the presence of a DebugSession
(hasSession), and bookkeeping for suspended relaunches
(relaunchPending: a relaunch has run its synchronous prefix and is
parked at its first await) and pending initialized events
(initPending: an initialize request was answered and the adapter's
initialized event has not been consumed yet).  exitCode records a
process.exit call. -/
structure Debugger where
  state : SessionState := .INITIALIZING
  inputEnabled : Bool := false
  readyForEvaluations : Bool := false
  capabilities : InitCaps := {}
  attachMode : Bool := false
  attached : Bool := false
  configured : Bool := false
  hasSession : Bool := false
  breakpoints : List Breakpoint := []
  threads : List Nat := []
  focusThread : Option Nat := none
  sourceCacheRefs : List Nat := []
  stoppedAtBreakpointId : Option Nat := none
  asyncStopThread : Option Nat := none
  relaunchPending : Bool := false
  initPending : Bool := false
  exitCode : Option Nat := none
deriving DecidableEq, Repr

/-- The Debugger's field initialisers (Debugger.js lines 68-84). -/
def emptyDebugger : Debugger := {}

/-- closeSession (Debugger.js lines 873-887): disconnect, drop the
thread collection, null the session, flush the source cache. -/
def closeSession (d : Debugger) : Debugger :=
  { d with threads := [], focusThread := none, hasSession := false,
           sourceCacheRefs := [] }

/-- createSession (Debugger.js lines 688-723): stop console input,
recreate the thread collection, construct the session, send initialize
and copy the capabilities; readyForEvaluations becomes true unless the
adapter advertises supportsReadyForEvaluationsEvent. -/
def createSession (caps : InitCaps) (d : Debugger) : Debugger :=
  { d with inputEnabled := false,
           threads := [], focusThread := none,
           hasSession := true,
           initPending := true,
           capabilities := caps,
           readyForEvaluations := !caps.supportsReadyForEvaluationsEvent }

/-- The synchronous prefix of relaunch (Debugger.js lines 135-141)
before its first await: enter INITIALIZING and clear the configured /
attached flags.  relaunchPending marks the suspended remainder. -/
def relaunchStart (d : Debugger) : Debugger :=
  { d with state := .INITIALIZING, configured := false, attached := false,
           relaunchPending := true }

/-- pauseAfterAttach (Debugger.js lines 212-231). -/
def pauseAfterAttach (d : Debugger) : Debugger :=
  if d.configured && d.attached then
    let tid := match d.asyncStopThread with
      | some t => some t
      | none => d.threads.head?
    match tid with
    | none => { d with inputEnabled := false }
    | some _ => d
  else d

/-- The remainder of relaunch after its first suspension (Debugger.js
lines 141-166): closeSession, createSession (capabilities caps), then
session.attach or session.launch.  sessionFail models the catch block:
any error makes the source print to stderr and call process.exit(0). -/
def relaunchResume (caps : InitCaps) (sessionFail : Bool) (d : Debugger) : Debugger :=
  let d1 := { createSession caps (closeSession d) with relaunchPending := false }
  if sessionFail then { d1 with exitCode := some 0 }
  else if d.attachMode then pauseAfterAttach { d1 with attached := true }
  else d1

/-- A completed relaunch (launch waits for the whole body). -/
def relaunchFull (caps : InitCaps) (sessionFail : Bool) (d : Debugger) : Debugger :=
  relaunchResume caps sessionFail (relaunchStart d)

/-- launch (Debugger.js lines 118-124): install the adapter, replace
the breakpoint collection with a fresh one, and relaunch. -/
def launchCmd (caps : InitCaps) (sessionFail : Bool) (d : Debugger) : Debugger :=
  relaunchFull caps sessionFail { d with breakpoints := [] }

/-- Modelled from the spec: ThreadCollection.updateThreads via
cacheThreads (Debugger.js lines 1058-1070); replaces the thread list,
keeping the focus thread only if it still exists. -/
def cacheThreads (newThreads : List Nat) (d : Debugger) : Debugger :=
  { d with threads := newThreads,
           focusThread := match d.focusThread with
             | some t => if newThreads.contains t then some t else none
             | none => none }

/-- resetAllBreakpoints (Debugger.js lines 725-780) as a collection
transformation: one setBreakpoints reconcile per enabled source path
(replies gives the adapter response for each path) plus one
setFunctionBreakpoints reconcile when supported and non-empty. -/
def resetAllBreakpoints (replies : String → List AdapterBreakpoint)
    (funcReplies : List AdapterBreakpoint) (caps : InitCaps)
    (col : List Breakpoint) : List Breakpoint :=
  let col1 := (enabledSourcePaths col).foldl
    (fun acc p => reconcileSourcePath acc p (replies p)) col
  if !caps.supportsFunctionBreakpoints
      || (getAllEnabledFunctionBreakpoints col1).isEmpty then col1
  else reconcileFunctionBreakpoints col1 funcReplies

/-- configurationDone (Debugger.js lines 185-210): enter RUNNING,
reset all breakpoints, send the empty setExceptionBreakpoints, then —
if the capability is advertised — the configurationDone request, whose
failure (cfgFail) makes the source print and process.exit(0); finally
cache the threads and, in launch mode, stop console input (in attach
mode, mark configured and run pauseAfterAttach). -/
def configurationDone (replies : String → List AdapterBreakpoint)
    (funcReplies : List AdapterBreakpoint) (newThreads : List Nat)
    (cfgFail : Bool) (d : Debugger) : Debugger :=
  let d1 := { d with state := .RUNNING }
  let d2 := { d1 with breakpoints :=
    resetAllBreakpoints replies funcReplies d1.capabilities d1.breakpoints }
  if d2.capabilities.supportsConfigurationDoneRequest && cfgFail then
    { d2 with exitCode := some 0 }
  else
    let d3 := cacheThreads newThreads d2
    if d3.attachMode then pauseAfterAttach { d3 with configured := true }
    else { d3 with inputEnabled := false }

/-- onExitedDebugee (Debugger.js lines 996-1013): unconditionally
enter TERMINATED and print the exit status; in launch mode start
console input and fire relaunch (whose synchronous prefix runs at
once), in attach mode process.exit(0). -/
def onExitedDebugee (d : Debugger) : Debugger :=
  let d1 := { d with state := .TERMINATED }
  if !d.attachMode then relaunchStart { d1 with inputEnabled := true }
  else { d1 with exitCode := some 0 }

/-- onTerminatedDebugee (Debugger.js lines 1015-1035): ignored unless
the state is RUNNING (the source comments that some adapters send
multiple terminated events); otherwise exactly the exited policy. -/
def onTerminatedDebugee (d : Debugger) : Debugger :=
  if d.state != .RUNNING then d
  else
    let d1 := { d with state := .TERMINATED }
    if !d.attachMode then relaunchStart { d1 with inputEnabled := true }
    else { d1 with exitCode := some 0 }

/-- onAdapterExited (Debugger.js lines 1037-1056): ignored while
INITIALIZING (expected during relaunch tear-down); otherwise the
terminated policy. -/
def onAdapterExited (d : Debugger) : Debugger :=
  if d.state == .INITIALIZING then d
  else
    let d1 := { d with state := .TERMINATED }
    if !d.attachMode then relaunchStart { d1 with inputEnabled := true }
    else { d1 with exitCode := some 0 }

/-- run (Debugger.js lines 233-250): refuse in attach mode, clear the
stopped-at breakpoint, relaunch when STOPPED (fire-and-forget, so only
relaunch's synchronous prefix runs before run returns), throw outside
CONFIGURING, else configurationDone.  The second component is the
thrown error message, if any. -/
def runCmd (replies : String → List AdapterBreakpoint)
    (funcReplies : List AdapterBreakpoint) (newThreads : List Nat)
    (cfgFail : Bool) (d : Debugger) : Debugger × Option String :=
  if d.attachMode then (d, some "Cannot run an attached process; already attached.")
  else
    let d0 := { d with stoppedAtBreakpointId := none }
    if d0.state = .STOPPED then (relaunchStart d0, none)
    else if d0.state ≠ .CONFIGURING then (d0, some "There is nothing to run.")
    else (configurationDone replies funcReplies newThreads cfgFail d0, none)

/-- One observable console or protocol action of a command. -/
inductive CAct where
  | stopInput
  | startInput
  | dap (name : String)
  | threwAct (msg : String)
deriving DecidableEq, Repr

/-- Error message of ensureDebugSession when no session exists
(Debugger.js line 1148). -/
def noSessionMsg : String := "There is no active debugging session."

/-- Error message of ensureDebugSession before launch when
allowBeforeLaunch is not set (Debugger.js lines 1155-1157). -/
def notYetRunningMsg : String :=
  "The program is not yet running (use \x27run\x27 to start it)."

/-- The outcome of the continue command: the next core state, the
console / protocol actions in order, and the propagated error. -/
structure ContinueOutcome where
  next : Debugger
  acts : List CAct
  error : Option String
deriving Repr

/-- continue (Debugger.js lines 329-367).  The whole body is wrapped
in try/catch; console input stops first, and the catch restarts input
before rethrowing.  sessionFail models a rejection of the continue
request itself; getActiveThread's nullthrows on the focus thread is the
focusThread match. -/
def continueCmd (replies : String → List AdapterBreakpoint)
    (funcReplies : List AdapterBreakpoint) (newThreads : List Nat)
    (cfgFail : Bool) (sessionFail : Bool) (d : Debugger) : ContinueOutcome :=
  let d0 := { d with inputEnabled := false }
  if !d.hasSession then
    { next := { d0 with inputEnabled := true },
      acts := [.stopInput, .startInput, .threwAct noSessionMsg],
      error := some noSessionMsg }
  else
    let d1 := { d0 with stoppedAtBreakpointId := none }
    if d1.state = .CONFIGURING then
      if d1.attachMode then
        { next := configurationDone replies funcReplies newThreads cfgFail d1,
          acts := [.stopInput, .dap "configurationDone"],
          error := none }
      else
        { next := { d1 with inputEnabled := true },
          acts := [.stopInput, .startInput,
                   .threwAct "There is not yet a running process to continue."],
          error := some "There is not yet a running process to continue." }
    else if d1.state = .STOPPED then
      match d1.focusThread with
      | none =>
        { next := { d1 with inputEnabled := true },
          acts := [.stopInput, .startInput, .threwAct "There is no focus thread."],
          error := some "There is no focus thread." }
      | some _ =>
        if sessionFail then
          { next := { d1 with inputEnabled := true },
            acts := [.stopInput, .dap "continue", .startInput,
                     .threwAct "The continue request failed."],
            error := some "The continue request failed." }
        else
          { next := d1, acts := [.stopInput, .dap "continue"], error := none }
    else if d1.state = .TERMINATED then
      { next := { d1 with inputEnabled := true },
        acts := [.stopInput, .startInput,
                 .threwAct "Cannot continue; process is terminated."],
        error := some "Cannot continue; process is terminated." }
    else
      { next := { d1 with inputEnabled := true },
        acts := [.stopInput, .startInput,
                 .threwAct "Continue called from unexpected state."],
        error := some "Continue called from unexpected state." }

/-- stepIn (Debugger.js lines 317-321): ensureDebugSession (no
allowBeforeLaunch, so it throws while INITIALIZING or CONFIGURING),
getActiveThread, then the stepIn request — with no console-input call
anywhere. -/
def stepInCmd (d : Debugger) : List CAct :=
  if !d.hasSession then [.threwAct noSessionMsg]
  else if d.state = .INITIALIZING ∨ d.state = .CONFIGURING then
    [.threwAct notYetRunningMsg]
  else
    match d.focusThread with
    | none => [.threwAct "There is no focus thread."]
    | some _ => [.dap "stepIn"]

/-- stepOver (Debugger.js lines 323-327): identical shape, sending
next. -/
def stepOverCmd (d : Debugger) : List CAct :=
  if !d.hasSession then [.threwAct noSessionMsg]
  else if d.state = .INITIALIZING ∨ d.state = .CONFIGURING then
    [.threwAct notYetRunningMsg]
  else
    match d.focusThread with
    | none => [.threwAct "There is no focus thread."]
    | some _ => [.dap "next"]

/-- The argument record of a DAP evaluate request as built by
evaluateExpression. -/
structure EvaluateArgs where
  expression : String
  context : String
  frameId : Option Nat := none
deriving DecidableEq, Repr

/-- evaluateExpression (Debugger.js lines 671-686): always context
repl; only when the state is RUNNING does it fetch the current stack
frame (frameRes is getCurrentStackFrame's result, which requires a
focus thread) and attach its id when present. -/
def evaluateExpression (expr : String) (frameRes : Option Nat) (d : Debugger) :
    Except String EvaluateArgs :=
  if !d.hasSession then .error noSessionMsg
  else if d.state = .RUNNING then
    match d.focusThread with
    | none => .error "There is no focus thread."
    | some _ =>
      match frameRes with
      | some fid => .ok { expression := expr, context := "repl", frameId := some fid }
      | none => .ok { expression := expr, context := "repl", frameId := none }
  else .ok { expression := expr, context := "repl", frameId := none }

/-- The slicing core of getSourceLines (Debugger.js lines 563-569),
applied to the lines the source cache produced: empty when the 1-based
start exceeds the line count, else the JavaScript
lines.slice(start - 1, min(start + length - 1, lines.length)). -/
def getSourceLines (lines : List String) (start length : Nat) : List String :=
  if start > lines.length then []
  else (lines.take (min (start + length - 1) lines.length)).drop (start - 1)

/-- The slice the specification describes: lines[start-1 ..
min(start-1+length, totalLines)], end exclusive. -/
def specSlice (lines : List String) (start length : Nat) : List String :=
  (lines.take (min (start - 1 + length) lines.length)).drop (start - 1)

/-- Outcome of a breakpoint enable / toggle command: the resulting
collection, the number of DAP breakpoint-setting requests issued, and
the propagated error. -/
structure BpCmdOutcome where
  breakpoints : List Breakpoint
  requests : Nat
  error : Option String
deriving Repr

/-- setBreakpointEnabled (Debugger.js lines 585-607):
ensureDebugSession (throws before launch), look the breakpoint up,
return silently when the flag already has the requested value, else
flip it and resend the path's breakpoints — restoring the flag before
propagating a failure.  Function breakpoints (path null) instead
resend all function breakpoints with no restore on failure.  resp and
funcResp are the adapter's replies. -/
def setBreakpointEnabledCmd (resp : Except String (List AdapterBreakpoint))
    (funcResp : Except String (List AdapterBreakpoint))
    (index : Nat) (enabled : Bool) (d : Debugger) : BpCmdOutcome :=
  if !d.hasSession then
    { breakpoints := d.breakpoints, requests := 0, error := some noSessionMsg }
  else if d.state = .INITIALIZING ∨ d.state = .CONFIGURING then
    { breakpoints := d.breakpoints, requests := 0, error := some notYetRunningMsg }
  else
    match getBreakpointByIndex? d.breakpoints index with
    | none =>
      -- Modelled from the spec: getBreakpointByIndex throws
      -- NoSuchBreakpoint for an unknown index
      { breakpoints := d.breakpoints, requests := 0,
        error := some "NoSuchBreakpoint" }
    | some bp =>
      if bp.enabled = enabled then
        { breakpoints := d.breakpoints, requests := 0, error := none }
      else
        let col1 := setEnabledFlag d.breakpoints index enabled
        match bp.path with
        | some p =>
          match resp with
          | .ok remotes =>
            { breakpoints := reconcileSourcePath col1 p remotes,
              requests := 1, error := none }
          | .error e =>
            { breakpoints := setEnabledFlag col1 index (!enabled),
              requests := 1, error := some e }
        | none =>
          if !d.capabilities.supportsFunctionBreakpoints
              || (getAllEnabledFunctionBreakpoints col1).isEmpty then
            { breakpoints := col1, requests := 0, error := none }
          else
            match funcResp with
            | .ok remotes =>
              { breakpoints := reconcileFunctionBreakpoints col1 remotes,
                requests := 1, error := none }
            | .error e =>
              { breakpoints := col1, requests := 1, error := some e }

/-- toggleBreakpoint (Debugger.js lines 616-634): like
setBreakpointEnabled but always flips, and the catch restores by
flipping the now-current flag again. -/
def toggleBreakpointCmd (resp : Except String (List AdapterBreakpoint))
    (funcResp : Except String (List AdapterBreakpoint))
    (index : Nat) (d : Debugger) : BpCmdOutcome :=
  if !d.hasSession then
    { breakpoints := d.breakpoints, requests := 0, error := some noSessionMsg }
  else if d.state = .INITIALIZING ∨ d.state = .CONFIGURING then
    { breakpoints := d.breakpoints, requests := 0, error := some notYetRunningMsg }
  else
    match getBreakpointByIndex? d.breakpoints index with
    | none =>
      { breakpoints := d.breakpoints, requests := 0,
        error := some "NoSuchBreakpoint" }
    | some bp =>
      let col1 := toggleEnabledFlag d.breakpoints index
      match bp.path with
      | some p =>
        match resp with
        | .ok remotes =>
          { breakpoints := reconcileSourcePath col1 p remotes,
            requests := 1, error := none }
        | .error e =>
          { breakpoints := toggleEnabledFlag col1 index,
            requests := 1, error := some e }
      | none =>
        if !d.capabilities.supportsFunctionBreakpoints
            || (getAllEnabledFunctionBreakpoints col1).isEmpty then
          { breakpoints := col1, requests := 0, error := none }
        else
          match funcResp with
          | .ok remotes =>
            { breakpoints := reconcileFunctionBreakpoints col1 remotes,
              requests := 1, error := none }
          | .error e =>
            { breakpoints := col1, requests := 1, error := some e }

/-- The claimed relation between console input and session state:
input enabled exactly in STOPPED or in CONFIGURING with
readyForEvaluations. -/
def inputStateIff (d : Debugger) : Prop :=
  d.inputEnabled = true ↔
    (d.state = .STOPPED ∨ (d.state = .CONFIGURING ∧ d.readyForEvaluations = true))

/-- Looking a breakpoint up after a guarded field update finds the
updated record, for any index-preserving update. -/
theorem getBreakpointByIndex_modifyAt (col : List Breakpoint) (index : Nat)
    (g : Breakpoint → Breakpoint) (hg : ∀ b, (g b).index = b.index) :
    getBreakpointByIndex? (modifyAt col index g) index =
      (getBreakpointByIndex? col index).map g := by
  induction col with
  | nil => rfl
  | cons b t ih =>
    by_cases hb : (b.index == index) = true
    · have hgb : ((g b).index == index) = true := by rw [hg b]; exact hb
      simp [getBreakpointByIndex?, modifyAt, List.find?, hb, hgb]
    · simp only [getBreakpointByIndex?, modifyAt, List.map_cons, List.find?, hb,
        if_false, Bool.false_eq_true]
      simp only [getBreakpointByIndex?, modifyAt] at ih
      exact ih

/-- Example sources used by concrete counterexamples and witnesses. -/
def capsPlain : InitCaps := {}

/-- A stopped core with a session and focus thread. -/
def dStop : Debugger :=
  { emptyDebugger with hasSession := true, state := .STOPPED, focusThread := some 1 }

/-- A terminated core in launch mode. -/
def dTerm : Debugger :=
  { emptyDebugger with hasSession := true, state := .TERMINATED }

/-- C8: getSourceLines returns the empty sequence whenever the 1-based
start exceeds the number of lines, and otherwise exactly the slice
lines[start-1 .. min(start-1+length, totalLines)] (end exclusive), so
an overlong length yields all lines from start to the end. -/
theorem c8_getSourceLines_slice (lines : List String) (start length : Nat)
    (h : 1 ≤ start) :
    (start > lines.length → getSourceLines lines start length = [])
    ∧ (start ≤ lines.length →
        getSourceLines lines start length = specSlice lines start length) := by
  constructor
  · intro hgt
    unfold getSourceLines
    rw [if_pos hgt]
  · intro hle
    unfold getSourceLines specSlice
    rw [if_neg (by omega)]
    have hx : start + length - 1 = start - 1 + length := by omega
    rw [hx]

theorem c8_getSourceLines_slice_witness :
    (1 ≤ 2
      ∧ ((2 > 3 → getSourceLines ["a", "b", "c"] 2 5 = [])
        ∧ (2 ≤ 3 → getSourceLines ["a", "b", "c"] 2 5 = specSlice ["a", "b", "c"] 2 5)))
    ∧ getSourceLines ["a", "b", "c"] 2 5 = ["b", "c"] :=
  ⟨⟨by decide, c8_getSourceLines_slice ["a", "b", "c"] 2 5 (by decide)⟩, by decide⟩

/-- C2 (counterexample): in state STOPPED, with a current stack frame
available, evaluateExpression does not attach the frame id — refuting
the claim that the frame id is attached exactly when the state is
Stopped. -/
theorem c2_counterexample :
    dStop.state = SessionState.STOPPED
    ∧ evaluateExpression "x" (some 7) dStop =
        .ok { expression := "x", context := "repl", frameId := none } :=
  ⟨rfl, rfl⟩

/-- C2 (amended): evaluateExpression always uses context repl, and
attaches the current frame id exactly when the state is RUNNING (and a
focus thread exists to resolve a frame); outside RUNNING — in
particular when STOPPED — no frame id is attached. -/
theorem c2_evaluate_frame_policy (expr : String) (frameRes : Option Nat)
    (d : Debugger) (hs : d.hasSession = true) :
    (d.state ≠ .RUNNING →
      evaluateExpression expr frameRes d =
        .ok { expression := expr, context := "repl", frameId := none })
    ∧ (d.state = .RUNNING → d.focusThread ≠ none →
      evaluateExpression expr frameRes d =
        .ok { expression := expr, context := "repl", frameId := frameRes }) := by
  unfold evaluateExpression
  rw [if_neg (by simp [hs])]
  constructor
  · intro h
    rw [if_neg h]
  · intro h hf
    rw [if_pos h]
    cases hft : d.focusThread with
    | none => exact absurd hft hf
    | some t => cases frameRes <;> rfl

theorem c2_evaluate_frame_policy_witness :
    (dStop.hasSession = true
      ∧ ((dStop.state ≠ .RUNNING →
          evaluateExpression "x" (some 7) dStop =
            .ok { expression := "x", context := "repl", frameId := none })
        ∧ (dStop.state = .RUNNING → dStop.focusThread ≠ none →
          evaluateExpression "x" (some 7) dStop =
            .ok { expression := "x", context := "repl", frameId := some 7 }))) :=
  ⟨rfl, c2_evaluate_frame_policy "x" (some 7) dStop rfl⟩

/-- A stopped launch-mode core used by the C5 counterexample. -/
def dStopRun : Debugger :=
  { emptyDebugger with hasSession := true, state := .STOPPED }

/-- C5 (counterexample): in state STOPPED — a state other than
Configuring — the run command raises no error at all (it triggers a
relaunch), refuting the claim that run outside Configuring always
yields a state-violation error. -/
theorem c5_counterexample :
    dStopRun.state ≠ SessionState.CONFIGURING
    ∧ (runCmd (fun _ => []) [] [] false dStopRun).2 = none
    ∧ (runCmd (fun _ => []) [] [] false dStopRun).1.relaunchPending = true := by
  refine ⟨by decide, rfl, rfl⟩

/-- C5 (amended): in launch mode, run in any state other than
Configuring or Stopped throws the state-violation error "There is
nothing to run." and leaves the breakpoint and thread collections
untouched; in Stopped it instead triggers a relaunch. -/
theorem c5_run_state_violation (replies : String → List AdapterBreakpoint)
    (funcReplies : List AdapterBreakpoint) (newThreads : List Nat)
    (cfgFail : Bool) (d : Debugger)
    (ha : d.attachMode = false)
    (h1 : d.state ≠ .CONFIGURING) (h2 : d.state ≠ .STOPPED) :
    (runCmd replies funcReplies newThreads cfgFail d).2 = some "There is nothing to run."
    ∧ (runCmd replies funcReplies newThreads cfgFail d).1.breakpoints = d.breakpoints
    ∧ (runCmd replies funcReplies newThreads cfgFail d).1.threads = d.threads := by
  unfold runCmd
  simp [ha, h1, h2]

theorem c5_run_state_violation_witness :
    (dTerm.attachMode = false ∧ dTerm.state ≠ .CONFIGURING ∧ dTerm.state ≠ .STOPPED)
    ∧ ((runCmd (fun _ => []) [] [] false dTerm).2 = some "There is nothing to run."
      ∧ (runCmd (fun _ => []) [] [] false dTerm).1.breakpoints = dTerm.breakpoints
      ∧ (runCmd (fun _ => []) [] [] false dTerm).1.threads = dTerm.threads) :=
  ⟨⟨rfl, by decide, by decide⟩,
    c5_run_state_violation (fun _ => []) [] [] false dTerm rfl (by decide) (by decide)⟩

/-- C7: launch replaces the breakpoint collection with a fresh empty
one, while relaunch — whether it succeeds or dies in its catch block —
leaves every breakpoint exactly as it was; the thread collection and
the source cache are emptied on every relaunch (recreated / flushed per
session). -/
theorem c7_launch_relaunch_breakpoints (caps : InitCaps) (sessionFail : Bool)
    (d : Debugger) :
    (launchCmd caps sessionFail d).breakpoints = []
    ∧ (relaunchFull caps sessionFail d).breakpoints = d.breakpoints
    ∧ (relaunchFull caps sessionFail d).threads = []
    ∧ (relaunchFull caps sessionFail d).sourceCacheRefs = [] := by
  unfold launchCmd relaunchFull relaunchResume relaunchStart createSession
    closeSession pauseAfterAttach
  cases sessionFail <;> cases ha : d.attachMode <;> simp [ha]


/-- C9: the process exits with status 0 on adapter-initiated
termination in attach mode (exited, terminated while running, adapter
exited outside INITIALIZING) and on a fatal launch failure (an error
caught by relaunch, or a failing configurationDone request). -/
theorem c9_exit_status_zero :
    (∀ d : Debugger, d.attachMode = true → (onExitedDebugee d).exitCode = some 0)
    ∧ (∀ d : Debugger, d.attachMode = true → d.state = .RUNNING →
        (onTerminatedDebugee d).exitCode = some 0)
    ∧ (∀ d : Debugger, d.attachMode = true → d.state ≠ .INITIALIZING →
        (onAdapterExited d).exitCode = some 0)
    ∧ (∀ (caps : InitCaps) (d : Debugger),
        (relaunchResume caps true d).exitCode = some 0)
    ∧ (∀ (replies : String → List AdapterBreakpoint)
        (funcReplies : List AdapterBreakpoint) (newThreads : List Nat) (d : Debugger),
        d.capabilities.supportsConfigurationDoneRequest = true →
        (configurationDone replies funcReplies newThreads true d).exitCode = some 0) := by
  refine ⟨?_, ?_, ?_, ?_, ?_⟩
  · intro d ha
    unfold onExitedDebugee
    simp [ha]
  · intro d ha hs
    unfold onTerminatedDebugee
    simp [ha, hs]
  · intro d ha hs
    unfold onAdapterExited
    simp [ha, hs]
  · intro caps d
    unfold relaunchResume
    simp
  · intro replies funcReplies newThreads d hc
    unfold configurationDone
    simp [hc]

/-- An attach-mode core used as the C9 witness input. -/
def dAttach : Debugger :=
  { emptyDebugger with hasSession := true, attachMode := true, state := .RUNNING }

theorem c9_exit_status_zero_witness :
    (dAttach.attachMode = true ∧ dAttach.state = .RUNNING
      ∧ dAttach.state ≠ .INITIALIZING
      ∧ dAttach.capabilities.supportsConfigurationDoneRequest = false)
    ∧ (onExitedDebugee dAttach).exitCode = some 0
    ∧ (onTerminatedDebugee dAttach).exitCode = some 0
    ∧ (onAdapterExited dAttach).exitCode = some 0
    ∧ (relaunchResume capsPlain true dAttach).exitCode = some 0 :=
  ⟨⟨rfl, rfl, by decide, rfl⟩,
    c9_exit_status_zero.1 dAttach rfl,
    c9_exit_status_zero.2.1 dAttach rfl rfl,
    c9_exit_status_zero.2.2.1 dAttach rfl (by decide),
    c9_exit_status_zero.2.2.2.1 capsPlain dAttach⟩

/-- C4 (counterexample): an exited event arriving while the state is
already TERMINATED is processed again — it re-enables console input
and fires another relaunch, refuting the claim that a terminated or
exited event in state Terminated causes no further transition or side
effects. -/
theorem c4_counterexample :
    dTerm.state = SessionState.TERMINATED
    ∧ dTerm.inputEnabled = false
    ∧ (onExitedDebugee dTerm).inputEnabled = true
    ∧ (onExitedDebugee dTerm).relaunchPending = true
    ∧ onExitedDebugee dTerm ≠ dTerm :=
  ⟨rfl, rfl, rfl, rfl, by decide⟩

/-- C4 (amended): terminated events are processed at most once per run
— the handler ignores them in every state but RUNNING (so a duplicate
in TERMINATED, or one arriving while STOPPED, does nothing); on the
first one, launch mode enables input and fires relaunch and attach
mode exits the process.  Exited events, however, are not guarded: in
any state they re-enter TERMINATED and repeat those side effects. -/
theorem c4_terminated_once_exited_unguarded (d : Debugger) :
    (d.state ≠ .RUNNING → onTerminatedDebugee d = d)
    ∧ (d.state = .RUNNING → d.attachMode = false →
        (onTerminatedDebugee d).state = .INITIALIZING
        ∧ (onTerminatedDebugee d).inputEnabled = true
        ∧ (onTerminatedDebugee d).relaunchPending = true)
    ∧ (d.state = .RUNNING → d.attachMode = true →
        (onTerminatedDebugee d).exitCode = some 0)
    ∧ (d.attachMode = false →
        (onExitedDebugee d).state = .INITIALIZING
        ∧ (onExitedDebugee d).inputEnabled = true
        ∧ (onExitedDebugee d).relaunchPending = true)
    ∧ (d.attachMode = true → (onExitedDebugee d).exitCode = some 0) := by
  refine ⟨?_, ?_, ?_, ?_, ?_⟩
  · intro h
    unfold onTerminatedDebugee
    simp [h]
  · intro h ha
    unfold onTerminatedDebugee relaunchStart
    simp [h, ha]
  · intro h ha
    unfold onTerminatedDebugee
    simp [h, ha]
  · intro ha
    unfold onExitedDebugee relaunchStart
    simp [ha]
  · intro ha
    unfold onExitedDebugee
    simp [ha]

theorem c4_terminated_once_exited_unguarded_witness :
    (dTerm.state ≠ .RUNNING ∧ dTerm.attachMode = false)
    ∧ onTerminatedDebugee dTerm = dTerm
    ∧ ((onExitedDebugee dTerm).state = .INITIALIZING
      ∧ (onExitedDebugee dTerm).inputEnabled = true
      ∧ (onExitedDebugee dTerm).relaunchPending = true) :=
  ⟨⟨by decide, rfl⟩,
    (c4_terminated_once_exited_unguarded dTerm).1 (by decide),
    (c4_terminated_once_exited_unguarded dTerm).2.2.2.1 rfl⟩

/-- C6 (counterexample): stepIn sends its DAP request without ever
disabling console input, refuting the claim that input is disabled
before any of the continue / stepIn / next requests. -/
theorem c6_counterexample :
    stepInCmd dStop = [CAct.dap "stepIn"]
    ∧ CAct.stopInput ∉ stepInCmd dStop
    ∧ CAct.stopInput ∉ stepOverCmd dStop :=
  ⟨rfl, by decide, by decide⟩

/-- C6 (amended): the continue command stops console input as its very
first action (before any request), and whenever it propagates an error
it has re-enabled console input first; stepIn and next, by contrast,
issue their requests without touching console input at all. -/
theorem c6_continue_input_discipline :
    (∀ (replies : String → List AdapterBreakpoint)
        (funcReplies : List AdapterBreakpoint) (newThreads : List Nat)
        (cfgFail sessionFail : Bool) (d : Debugger),
      (continueCmd replies funcReplies newThreads cfgFail sessionFail d).acts.head? =
        some CAct.stopInput)
    ∧ (∀ (replies : String → List AdapterBreakpoint)
        (funcReplies : List AdapterBreakpoint) (newThreads : List Nat)
        (cfgFail sessionFail : Bool) (d : Debugger),
        (continueCmd replies funcReplies newThreads cfgFail sessionFail d).error ≠ none →
        (continueCmd replies funcReplies newThreads cfgFail sessionFail d).next.inputEnabled
          = true)
    ∧ (∀ d : Debugger, CAct.stopInput ∉ stepInCmd d)
    ∧ (∀ d : Debugger, CAct.stopInput ∉ stepOverCmd d) := by
  refine ⟨?_, ?_, ?_, ?_⟩
  · intro replies funcReplies newThreads cfgFail sessionFail d
    unfold continueCmd
    dsimp only
    repeat' split
    all_goals rfl
  · intro replies funcReplies newThreads cfgFail sessionFail d
    unfold continueCmd
    dsimp only
    repeat' split
    all_goals intro h
    all_goals first
      | rfl
      | exact absurd rfl h
  · intro d
    unfold stepInCmd
    repeat' split
    all_goals simp
  · intro d
    unfold stepOverCmd
    repeat' split
    all_goals simp

theorem c6_continue_input_discipline_witness :
    ((continueCmd (fun _ => []) [] [] false false dTerm).error ≠ none)
    ∧ (continueCmd (fun _ => []) [] [] false false dTerm).acts.head? =
        some CAct.stopInput
    ∧ (continueCmd (fun _ => []) [] [] false false dTerm).next.inputEnabled = true :=
  ⟨by decide,
    c6_continue_input_discipline.1 (fun _ => []) [] [] false false dTerm,
    c6_continue_input_discipline.2.1 (fun _ => []) [] [] false false dTerm (by decide)⟩

/-- Lookup after setId finds the breakpoint with its id set. -/
theorem find_setBreakpointId (col : List Breakpoint) (index i : Nat) :
    getBreakpointByIndex? (setBreakpointId col index i) index =
      (getBreakpointByIndex? col index).map (fun b => { b with id := some i }) :=
  getBreakpointByIndex_modifyAt col index _ (fun _ => rfl)

/-- Lookup after setVerified finds the breakpoint with its flag set. -/
theorem find_setBreakpointVerified (col : List Breakpoint) (index : Nat) (v : Bool) :
    getBreakpointByIndex? (setBreakpointVerified col index v) index =
      (getBreakpointByIndex? col index).map (fun b => { b with verified := v }) :=
  getBreakpointByIndex_modifyAt col index _ (fun _ => rfl)

/-- Lookup after setPathAndFile finds the breakpoint with its resolved
location set. -/
theorem find_setPathAndFile (col : List Breakpoint) (index : Nat) (p : String) (l : Nat) :
    getBreakpointByIndex? (setPathAndFile col index p l) index =
      (getBreakpointByIndex? col index).map
        (fun b => { b with path := some p, line := some l }) :=
  getBreakpointByIndex_modifyAt col index _ (fun _ => rfl)

/-- Lookup after setEnabled finds the breakpoint with its flag set. -/
theorem find_setEnabledFlag (col : List Breakpoint) (index : Nat) (e : Bool) :
    getBreakpointByIndex? (setEnabledFlag col index e) index =
      (getBreakpointByIndex? col index).map (fun b => { b with enabled := e }) :=
  getBreakpointByIndex_modifyAt col index _ (fun _ => rfl)

/-- Lookup after a toggle finds the breakpoint with its flag flipped. -/
theorem find_toggleEnabledFlag (col : List Breakpoint) (index : Nat) :
    getBreakpointByIndex? (toggleEnabledFlag col index) index =
      (getBreakpointByIndex? col index).map (fun b => { b with enabled := !b.enabled }) :=
  getBreakpointByIndex_modifyAt col index _ (fun _ => rfl)

/-- updateBreakpoint rewrites exactly the breakpoint at the local
index, by the per-record update updOne. -/
theorem updateBreakpoint_find (col : List Breakpoint) (lb : Breakpoint)
    (remote : AdapterBreakpoint) (bp : Breakpoint)
    (hfind : getBreakpointByIndex? col lb.index = some bp) :
    getBreakpointByIndex? (updateBreakpoint col lb remote).1 lb.index
      = some (updOne lb.func remote bp) := by
  unfold updateBreakpoint updOne
  dsimp only
  repeat' split
  all_goals
    simp_all [find_setBreakpointId, find_setBreakpointVerified, find_setPathAndFile]

/-- C3: for each reconcile pairing, the adapter's returned id and (when
present) verified flag are recorded on the local breakpoint, plus the
resolved source path and line for function breakpoints; when the
adapter returned no id the local breakpoint is marked verified; and an
unverified returned breakpoint with no (or an empty) message gets the
substituted could-not-set message, so it always carries a non-empty
message. -/
theorem c3_reconcile_updates (col : List Breakpoint) (lb : Breakpoint)
    (remote : AdapterBreakpoint) (bp : Breakpoint)
    (hfind : getBreakpointByIndex? col lb.index = some bp) :
    getBreakpointByIndex? (updateBreakpoint col lb remote).1 lb.index
        = some (updOne lb.func remote bp)
    ∧ (∀ i, remote.id = some i → (updOne lb.func remote bp).id = some i)
    ∧ (∀ i v, remote.id = some i → remote.verified = some v →
        (updOne lb.func remote bp).verified = v)
    ∧ (remote.id = none → (updOne lb.func remote bp).verified = true)
    ∧ (∀ f src p l, lb.func = some f → remote.source = some src →
        src.path = some p → remote.line = some l →
        (updOne lb.func remote bp).path = some p
        ∧ (updOne lb.func remote bp).line = some l)
    ∧ (remote.verified ≠ some true →
        remote.message = none ∨ remote.message = some "" →
        (updateBreakpoint col lb remote).2.message = some couldNotSetMsg)
    ∧ ((updateBreakpoint col lb remote).2.verified ≠ some true →
        (updateBreakpoint col lb remote).2.message ≠ none
        ∧ (updateBreakpoint col lb remote).2.message ≠ some "") := by
  refine ⟨updateBreakpoint_find col lb remote bp hfind, ?_, ?_, ?_, ?_, ?_, ?_⟩
  · intro i hi
    unfold updOne
    dsimp only
    rw [hi]
    repeat' split
    all_goals simp_all
  · intro i v hi hv
    unfold updOne
    dsimp only
    rw [hi, hv]
    repeat' split
    all_goals simp_all
  · intro hi
    unfold updOne
    dsimp only
    rw [hi]
    repeat' split
    all_goals simp_all
  · intro f src p l hf hsrc hp hl
    unfold updOne
    dsimp only
    rw [hf, hsrc]
    dsimp only
    rw [hp, hl]
    simp
  · intro hv hm
    unfold updateBreakpoint
    dsimp only
    rw [if_neg hv, if_pos hm]
  · intro hv
    unfold updateBreakpoint at hv ⊢
    dsimp only at hv ⊢
    by_cases h1 : remote.verified = some true
    · exact absurd (by rw [if_pos h1]; exact h1) hv
    · rw [if_neg h1]
      by_cases h2 : remote.message = none ∨ remote.message = some ""
      · rw [if_pos h2]
        constructor <;> simp [couldNotSetMsg]
      · rw [if_neg h2]
        push_neg at h2
        exact h2

/-- A source breakpoint used by concrete witnesses. -/
def bpW : Breakpoint :=
  { index := 1, path := some "/x", line := some 5 }

/-- An unverified adapter reply with an id and no message. -/
def remoteW : AdapterBreakpoint :=
  { id := some 42, verified := some false }

theorem c3_reconcile_updates_witness :
    (getBreakpointByIndex? [bpW] bpW.index = some bpW)
    ∧ (getBreakpointByIndex? (updateBreakpoint [bpW] bpW remoteW).1 bpW.index
        = some (updOne bpW.func remoteW bpW)
      ∧ (∀ i, remoteW.id = some i → (updOne bpW.func remoteW bpW).id = some i)
      ∧ (∀ i v, remoteW.id = some i → remoteW.verified = some v →
          (updOne bpW.func remoteW bpW).verified = v)
      ∧ (remoteW.id = none → (updOne bpW.func remoteW bpW).verified = true)
      ∧ (∀ f src p l, bpW.func = some f → remoteW.source = some src →
          src.path = some p → remoteW.line = some l →
          (updOne bpW.func remoteW bpW).path = some p
          ∧ (updOne bpW.func remoteW bpW).line = some l)
      ∧ (remoteW.verified ≠ some true →
          remoteW.message = none ∨ remoteW.message = some "" →
          (updateBreakpoint [bpW] bpW remoteW).2.message = some couldNotSetMsg)
      ∧ ((updateBreakpoint [bpW] bpW remoteW).2.verified ≠ some true →
          (updateBreakpoint [bpW] bpW remoteW).2.message ≠ none
          ∧ (updateBreakpoint [bpW] bpW remoteW).2.message ≠ some ""))
    ∧ (updateBreakpoint [bpW] bpW remoteW).2.message = some couldNotSetMsg :=
  ⟨by decide, c3_reconcile_updates [bpW] bpW remoteW bpW (by decide), by decide⟩

/-- C10: setBreakpointEnabled with the breakpoint's current flag value
returns without issuing any DAP request or touching the collection;
and for a source breakpoint both setBreakpointEnabled and
toggleBreakpoint restore the enabled flag to its prior value before
propagating a failed setBreakpoints request. -/
theorem c10_enable_toggle_atomic
    (resp funcResp : Except String (List AdapterBreakpoint))
    (index : Nat) (enabled : Bool) (e : String) (d : Debugger)
    (bp : Breakpoint) (p : String)
    (hs : d.hasSession = true)
    (hst : ¬(d.state = .INITIALIZING ∨ d.state = .CONFIGURING))
    (hfind : getBreakpointByIndex? d.breakpoints index = some bp)
    (hpath : bp.path = some p) :
    (bp.enabled = enabled →
      setBreakpointEnabledCmd resp funcResp index enabled d =
        { breakpoints := d.breakpoints, requests := 0, error := none })
    ∧ (bp.enabled ≠ enabled → resp = Except.error e →
        (setBreakpointEnabledCmd resp funcResp index enabled d).error = some e
        ∧ (setBreakpointEnabledCmd resp funcResp index enabled d).requests = 1
        ∧ ∃ bp', getBreakpointByIndex?
            (setBreakpointEnabledCmd resp funcResp index enabled d).breakpoints index
            = some bp' ∧ bp'.enabled = bp.enabled)
    ∧ (resp = Except.error e →
        (toggleBreakpointCmd resp funcResp index d).error = some e
        ∧ ∃ bp', getBreakpointByIndex?
            (toggleBreakpointCmd resp funcResp index d).breakpoints index
            = some bp' ∧ bp'.enabled = bp.enabled) := by
  refine ⟨?_, ?_, ?_⟩
  · intro he
    unfold setBreakpointEnabledCmd
    rw [if_neg (by simp [hs]), if_neg hst, hfind]
    dsimp only
    rw [if_pos he]
  · intro hne hresp
    unfold setBreakpointEnabledCmd
    rw [if_neg (by simp [hs]), if_neg hst, hfind]
    dsimp only
    rw [if_neg hne, hpath]
    dsimp only
    rw [hresp]
    dsimp only
    refine ⟨rfl, rfl, { bp with enabled := !enabled }, ?_, ?_⟩
    · unfold setEnabledFlag
      simp [getBreakpointByIndex_modifyAt, hfind]
    · cases hbe : bp.enabled <;> cases enabled <;> simp_all
  · intro hresp
    unfold toggleBreakpointCmd
    rw [if_neg (by simp [hs]), if_neg hst, hfind]
    dsimp only
    rw [hpath]
    dsimp only
    rw [hresp]
    dsimp only
    refine ⟨rfl, { bp with enabled := !(!bp.enabled) }, ?_, ?_⟩
    · unfold toggleEnabledFlag
      simp [getBreakpointByIndex_modifyAt, hfind]
    · simp

/-- The core used as the C10 witness input. -/
def dBp : Debugger :=
  { emptyDebugger with hasSession := true, state := .STOPPED, breakpoints := [bpW] }

theorem c10_enable_toggle_atomic_witness :
    (dBp.hasSession = true
      ∧ ¬(dBp.state = .INITIALIZING ∨ dBp.state = .CONFIGURING)
      ∧ getBreakpointByIndex? dBp.breakpoints 1 = some bpW
      ∧ bpW.path = some "/x"
      ∧ bpW.enabled ≠ false
      ∧ (Except.error "boom" : Except String (List AdapterBreakpoint)) =
          Except.error "boom")
    ∧ ((setBreakpointEnabledCmd (Except.error "boom") (Except.ok []) 1 false dBp).error
          = some "boom"
      ∧ (setBreakpointEnabledCmd (Except.error "boom") (Except.ok []) 1 false dBp).requests
          = 1
      ∧ ∃ bp', getBreakpointByIndex?
          (setBreakpointEnabledCmd (Except.error "boom") (Except.ok []) 1 false
            dBp).breakpoints 1 = some bp' ∧ bp'.enabled = bpW.enabled)
    ∧ ((toggleBreakpointCmd (Except.error "boom") (Except.ok []) 1 dBp).error
          = some "boom"
      ∧ ∃ bp', getBreakpointByIndex?
          (toggleBreakpointCmd (Except.error "boom") (Except.ok []) 1 dBp).breakpoints 1
          = some bp' ∧ bp'.enabled = bpW.enabled) :=
  ⟨⟨rfl, by decide, by decide, rfl, by decide, rfl⟩,
    (c10_enable_toggle_atomic (Except.error "boom") (Except.ok []) 1 false "boom" dBp
      bpW "/x" rfl (by decide) (by decide) rfl).2.1 (by decide) rfl,
    (c10_enable_toggle_atomic (Except.error "boom") (Except.ok []) 1 false "boom" dBp
      bpW "/x" rfl (by decide) (by decide) rfl).2.2 rfl⟩

